import Mathlib

/-!
Verification of the interactive play-design canvas (token drag, path editing,
batched updates, viewport pan/zoom clamping, and persistence fallbacks)
against its natural-language specification.  The definitions below are a
shallow embedding of the TypeScript source: coordinates are rationals,
DOM callbacks become pure state-transition functions that return the new
component state together with the list of externally visible callback
invocations (`onSelectPlayer` / `onUpdatePlayer`).
-/

namespace PlayDesign

/-- A 2-D point in model space (`Point` from the types module, as used by
every source file). -/
structure Point where
  x : ℚ
  y : ℚ
deriving DecidableEq, Repr

/-- `PlayerRole` enum: offense tokens may carry routes, defense tokens may not. -/
inductive PlayerRole where
  | OFFENSE
  | DEFENSE
deriving DecidableEq, Repr

/-- A token on the surface (`Player` from the types module, fields as read and
written throughout the source). -/
structure Player where
  id : String
  label : String
  role : PlayerRole
  x : ℚ
  y : ℚ
  color : String
  route : List Point
deriving DecidableEq, Repr

/-- An artifact (`Play` from the types module, fields as used by
`services/storage.ts` and the app component). -/
structure Play where
  id : String
  name : String
  formation : String
  tags : List String
  notes : String
  createdAt : ℕ
  updatedAt : ℕ
  players : List Player
deriving DecidableEq, Repr

/-- `FIELD_WIDTH` constant (Field.tsx line 14). -/
def FIELD_WIDTH : ℚ := 100

/-- `FIELD_HEIGHT` constant (Field.tsx line 15). -/
def FIELD_HEIGHT : ℚ := 80

/-- Clamp applied on a token drag move, Field.tsx lines 170-171:
`Math.max(2, Math.min(FIELD_WIDTH - 2, point.x))` and the same for `y`
against `FIELD_HEIGHT - 2`. -/
def dragClampPoint (p : Point) : Point :=
  ⟨max 2 (min (FIELD_WIDTH - 2) p.x), max 2 (min (FIELD_HEIGHT - 2) p.y)⟩

/-- Clamp applied on a waypoint (route handle) drag move, Field.tsx
lines 176-179. -/
def routeClampPoint (p : Point) : Point :=
  ⟨max 2 (min (FIELD_WIDTH - 2) p.x), max 2 (min (FIELD_HEIGHT - 2) p.y)⟩

/-- Clamp applied on a tap-to-extend release, Field.tsx lines 207-208:
`Math.max(0, Math.min(FIELD_WIDTH, point.x))` and the same for `y` against
`FIELD_HEIGHT` (note: no 2-unit margin at this write site). -/
def tapClampPoint (p : Point) : Point :=
  ⟨max 0 (min FIELD_WIDTH p.x), max 0 (min FIELD_HEIGHT p.y)⟩

/-- The surface rectangle inset by the 2-unit margin. -/
abbrev withinMargin (q : Point) : Prop :=
  2 ≤ q.x ∧ q.x ≤ FIELD_WIDTH - 2 ∧ 2 ≤ q.y ∧ q.y ≤ FIELD_HEIGHT - 2

/-- The full surface rectangle (no margin). -/
abbrev withinField (q : Point) : Prop :=
  0 ≤ q.x ∧ q.x ≤ FIELD_WIDTH ∧ 0 ≤ q.y ∧ q.y ≤ FIELD_HEIGHT

/-- `InteractionType` from Field.tsx line 17 (the `null` case is modelled as
`Option InteractionType`, mirroring the union with `null`). -/
inductive InteractionType where
  | player
  | route
  | field
deriving DecidableEq, Repr

/-- The mutable `interactionRef.current` record of Field.tsx lines 71-78. -/
structure InteractionRef where
  pointerId : Option ℕ
  type : Option InteractionType
  playerId : Option String
  routeIndex : Option ℕ
  startPoint : Option Point
  moved : Bool
deriving DecidableEq, Repr

/-- The idle interaction value `{ pointerId: null, type: null, startPoint: null,
moved: false }` used both initially and on release (Field.tsx lines 78, 224). -/
def idleInteraction : InteractionRef :=
  ⟨none, none, none, none, none, false⟩

/-- The component-local mutable state of Field.tsx: the interaction ref, the
`isDragging` and `dragTrail` pieces of React state, the `latestPointRef`, and
the two pending animation-frame slots.  `pendingFrame` stores the `playerId`
captured by the scheduled callback closure (Field.tsx line 98); likewise
`pendingRouteFrame` stores the `(playerId, routeIndex, clamped)` triple
captured at line 182. -/
structure FieldState where
  interaction : InteractionRef
  isDragging : Bool
  dragTrail : List Point
  latestPoint : Option Point
  pendingFrame : Option String
  pendingRouteFrame : Option (String × ℕ × Point)
deriving DecidableEq, Repr

/-- The state the component mounts with. -/
def initialFieldState : FieldState :=
  ⟨idleInteraction, false, [], none, none, none⟩

/-- An externally observable callback invocation made by the canvas component. -/
inductive Effect where
  | selectPlayer : Option String → Effect
  | updatePlayer : Player → Effect
deriving DecidableEq, Repr

/-- What the pointer-down event hit: a token, a waypoint handle of the selected
token, or the empty surface (Field.tsx `handlePointerDown` arguments). -/
inductive DownTarget where
  | player : Player → DownTarget
  | routeHandle : String → ℕ → DownTarget
  | field : DownTarget
deriving DecidableEq, Repr

/-- JavaScript string truthiness for the `string | null` values tested with
bare `if (selectedPlayerId)` / `if (interaction.playerId)`: `null` and the
empty string are falsy. -/
def truthyStr : Option String → Bool
  | none => false
  | some s => !(s == "")

/-- `schedulePlayerUpdate` (Field.tsx lines 94-112): store the newest point in
`latestPointRef` and register an animation-frame callback only if none is
pending; the callback closure captures the `playerId` passed at registration
time. -/
def schedulePlayerUpdate (s : FieldState) (playerId : String) (point : Point) :
    FieldState :=
  let s' := { s with latestPoint := some point }
  if s'.pendingFrame = none then { s' with pendingFrame := some playerId } else s'

/-- `handlePointerDown` (Field.tsx lines 114-159).  Returns the new state and
the emitted callback invocations (selecting the pressed token). -/
def handlePointerDown (readOnly : Bool) (s : FieldState) (pointerId : ℕ)
    (point : Point) (target : DownTarget) : FieldState × List Effect :=
  if readOnly then (s, [])
  else
    match target with
    | .player p =>
        ({ s with isDragging := true,
                  interaction :=
                    ⟨some pointerId, some .player, some p.id, none, some point, false⟩ },
          [Effect.selectPlayer (some p.id)])
    | .routeHandle pid idx =>
        ({ s with interaction :=
                    ⟨some pointerId, some .route, some pid, some idx, some point, false⟩ },
          [])
    | .field =>
        ({ s with interaction :=
                    ⟨some pointerId, some .field, none, none, some point, false⟩ },
          [])

/-- `handlePointerMove` (Field.tsx lines 161-191).  No callback fires directly;
token and waypoint moves only mutate the pending-frame slots.  The token
branch requires a truthy `interaction.playerId`; the waypoint branch tests
`interaction.playerId != null` (loose inequality) and
`interaction.routeIndex !== undefined`. -/
def handlePointerMove (readOnly : Bool) (s : FieldState) (pointerId : ℕ)
    (point : Point) : FieldState :=
  if readOnly ∨ s.interaction.pointerId ≠ some pointerId ∨ s.interaction.type = none then
    s
  else
    let s1 := { s with interaction := { s.interaction with moved := true } }
    let s2 :=
      if s1.interaction.type = some InteractionType.player ∧
          truthyStr s1.interaction.playerId = true then
        match s1.interaction.playerId with
        | some pid => schedulePlayerUpdate s1 pid (dragClampPoint point)
        | none => s1
      else s1
    if s2.interaction.type = some InteractionType.route ∧
        s2.interaction.playerId.isSome ∧ s2.interaction.routeIndex.isSome then
      match s2.interaction.playerId, s2.interaction.routeIndex with
      | some pid, some idx =>
          if s2.pendingRouteFrame = none then
            { s2 with pendingRouteFrame := some (pid, idx, routeClampPoint point) }
          else s2
      | _, _ => s2
    else s2

/-- `handlePointerUp` (Field.tsx lines 193-225).  Tap-to-extend on a `field`
interaction with no intervening move; always resets the interaction ref. -/
def handlePointerUp (play : Play) (selectedPlayerId : Option String)
    (s : FieldState) (pointerId : ℕ) (point : Point) : FieldState × List Effect :=
  if s.interaction.pointerId ≠ some pointerId then (s, [])
  else
    let s1 :=
      if s.interaction.type = some InteractionType.player then
        { s with isDragging := false, dragTrail := [] }
      else s
    let effs :=
      if s1.interaction.type = some InteractionType.field ∧
          s1.interaction.moved = false ∧ truthyStr selectedPlayerId = true then
        match selectedPlayerId with
        | some sid =>
            match play.players.find? (fun p => p.id == sid) with
            | some currentPlayer =>
                if currentPlayer.role = PlayerRole.OFFENSE then
                  [Effect.updatePlayer
                    { currentPlayer with
                        route := currentPlayer.route ++ [tapClampPoint point] }]
                else [Effect.selectPlayer none]
            | none => [Effect.selectPlayer none]
        | none => []
      else []
    ({ s1 with interaction := idleInteraction }, effs)

/-- Last `n` entries of a list, the semantics of `array.slice(-n)` for the
drag trail (Field.tsx line 106). -/
def lastN (n : ℕ) (l : List Point) : List Point :=
  l.drop (l.length - n)

/-- The animation-frame callback registered by `schedulePlayerUpdate`
(Field.tsx lines 98-110): clear the pending slot, read the latest point, look
the token up in the current artifact, and issue exactly one update for it
(appending to the bounded drag trail). -/
def firePlayerFrame (play : Play) (s : FieldState) : FieldState × List Effect :=
  match s.pendingFrame with
  | none => (s, [])
  | some pid =>
      let s1 := { s with pendingFrame := none }
      match s1.latestPoint with
      | none => (s1, [])
      | some pt =>
          match play.players.find? (fun p => p.id == pid) with
          | none => (s1, [])
          | some player =>
              ({ s1 with dragTrail := lastN 10 (s1.dragTrail ++ [pt]) },
                [Effect.updatePlayer { player with x := pt.x, y := pt.y }])

/-- Index-targeted replacement, the semantics of
`route.map((pt, idx) => idx === routeIndex ? clamped : pt)`
(Field.tsx line 186): only the entry at the given index changes; an
out-of-range index changes nothing. -/
def replaceAt : List Point → ℕ → Point → List Point
  | [], _, _ => []
  | _ :: rest, 0, v => v :: rest
  | p :: rest, Nat.succ n, v => p :: replaceAt rest n v

/-- The animation-frame callback registered for a waypoint drag (Field.tsx
lines 182-188): if the token has disappeared the callback returns without
any update; otherwise it issues one update with the index-targeted
replacement applied to the token's current route. -/
def fireRouteFrame (play : Play) (s : FieldState) : FieldState × List Effect :=
  match s.pendingRouteFrame with
  | none => (s, [])
  | some (pid, idx, clamped) =>
      let s1 := { s with pendingRouteFrame := none }
      match play.players.find? (fun p => p.id == pid) with
      | none => (s1, [])
      | some player =>
          (s1, [Effect.updatePlayer
                  { player with route := replaceAt player.route idx clamped }])

/-- One input event delivered to the canvas component. -/
inductive FieldEvent where
  | down : ℕ → Point → DownTarget → FieldEvent
  | move : ℕ → Point → FieldEvent
  | up : ℕ → Point → FieldEvent
  | playerFrame : FieldEvent
  | routeFrame : FieldEvent
deriving DecidableEq, Repr

/-- Dispatch one event to the matching handler. -/
def fieldStep (readOnly : Bool) (play : Play) (selectedPlayerId : Option String)
    (s : FieldState) : FieldEvent → FieldState × List Effect
  | .down pid pt target => handlePointerDown readOnly s pid pt target
  | .move pid pt => (handlePointerMove readOnly s pid pt, [])
  | .up pid pt => handlePointerUp play selectedPlayerId s pid pt
  | .playerFrame => firePlayerFrame play s
  | .routeFrame => fireRouteFrame play s

/-- Run a sequence of events, accumulating every emitted callback invocation. -/
def fieldRun (readOnly : Bool) (play : Play) (selectedPlayerId : Option String)
    (s : FieldState) : List FieldEvent → FieldState × List Effect
  | [] => (s, [])
  | e :: rest =>
      let r := fieldStep readOnly play selectedPlayerId s e
      let r' := fieldRun readOnly play selectedPlayerId r.1 rest
      (r'.1, r.2 ++ r'.2)

/-- `ViewportState` of the pan/zoom canvas variant (part_001 lines 19-23). -/
structure ViewportState where
  x : ℚ
  y : ℚ
  zoom : ℚ
deriving DecidableEq, Repr

/-- `clampViewport` (part_001 lines 48-61): clamps the origin against an
overscroll range of 25% of the surface dimensions computed from the candidate
zoom; the zoom itself is passed through unchanged. -/
def clampViewport (candidate : ViewportState) : ViewportState :=
  let width := FIELD_WIDTH / candidate.zoom
  let height := FIELD_HEIGHT / candidate.zoom
  let minX := -FIELD_WIDTH * (1/4)
  let maxX := FIELD_WIDTH - width + FIELD_WIDTH * (1/4)
  let minY := -FIELD_HEIGHT * (1/4)
  let maxY := FIELD_HEIGHT - height + FIELD_HEIGHT * (1/4)
  { candidate with
      x := min (max candidate.x minX) maxX,
      y := min (max candidate.y minY) maxY }

/-- A viewport whose origin already lies inside the overscroll bounds that
`clampViewport` enforces for its zoom. -/
def legalViewport (c : ViewportState) : Prop :=
  -FIELD_WIDTH * (1/4) ≤ c.x ∧
    c.x ≤ FIELD_WIDTH - FIELD_WIDTH / c.zoom + FIELD_WIDTH * (1/4) ∧
    -FIELD_HEIGHT * (1/4) ≤ c.y ∧
    c.y ≤ FIELD_HEIGHT - FIELD_HEIGHT / c.zoom + FIELD_HEIGHT * (1/4)

instance legalViewportDecidable (c : ViewportState) : Decidable (legalViewport c) := by
  unfold legalViewport
  infer_instance

/-- The viewport updater inside `handleWheel` (part_001 lines 204-227), before
the result is piped through `clampViewport`.  The wheel direction picks the
multiplicative factor 1.08 (zoom in) or 0.92 (zoom out); the new zoom is
clamped to [0.6, 2.5]; the origin is recomputed so the focus point keeps its
relative position in the visible window. -/
def wheelZoom (prev : ViewportState) (focusPoint : Point) (zoomIn : Bool) :
    ViewportState :=
  let zoomDelta : ℚ := if zoomIn then 27/25 else 23/25
  let newZoom := min (5/2) (max (3/5) (prev.zoom * zoomDelta))
  let prevWidth := FIELD_WIDTH / prev.zoom
  let prevHeight := FIELD_HEIGHT / prev.zoom
  let newWidth := FIELD_WIDTH / newZoom
  let newHeight := FIELD_HEIGHT / newZoom
  let scaleX := (focusPoint.x - prev.x) / prevWidth
  let scaleY := (focusPoint.y - prev.y) / prevHeight
  ⟨focusPoint.x - scaleX * newWidth, focusPoint.y - scaleY * newHeight, newZoom⟩

/-- `handleWheel` (part_001 lines 201-228): the zoom computation piped through
`setViewportClamped`, i.e. through `clampViewport`. -/
def handleWheel (prev : ViewportState) (focusPoint : Point) (zoomIn : Bool) :
    ViewportState :=
  clampViewport (wheelZoom prev focusPoint zoomIn)

/-- Screen position of a model point under a viewport, expressed as the
fraction of the way across the visible window: the `viewBox` is
`(x, y, FIELD_WIDTH/zoom, FIELD_HEIGHT/zoom)` (part_001 lines 67-68, 244), so
a model point renders at fraction `(m - origin) / (dimension / zoom)` of the
fixed on-screen canvas. -/
def screenFrac (v : ViewportState) (m : Point) : Point :=
  ⟨(m.x - v.x) / (FIELD_WIDTH / v.zoom), (m.y - v.y) / (FIELD_HEIGHT / v.zoom)⟩

/-- `handleUpdatePlayer` of the app component (part_000 lines 204-210):
replace every token whose id matches the updated token. -/
def handleUpdatePlayer (play : Play) (updatedPlayer : Player) : Play :=
  { play with
      players := play.players.map
        (fun p => if p.id == updatedPlayer.id then updatedPlayer else p) }

/-- The route written by `applyRoutePreset` (part_000 lines 212-233): template
points generated from the token's position with direction signs chosen by
which half of the surface the token occupies, then clamped to
[2, 98] x [2, 78]. -/
def applyRoutePresetRoute (getPoints : ℚ → ℚ → ℚ → ℚ → List Point)
    (player : Player) : List Point :=
  let isLeft := player.x < 50
  let inDir : ℚ := if isLeft then 1 else -1
  let outDir : ℚ := if isLeft then -1 else 1
  let newRoute := getPoints player.x player.y inDir outDir
  newRoute.map (fun p => ⟨max 2 (min 98 p.x), max 2 (min 78 p.y)⟩)

/-- `applyRoutePreset` (part_000 lines 212-233) end to end: look up the
selected token and replace its route wholesale with the clamped template
output. -/
def applyRoutePreset (play : Play) (selectedPlayerId : Option String)
    (getPoints : ℚ → ℚ → ℚ → ℚ → List Point) : Play :=
  if truthyStr selectedPlayerId = true then
    match selectedPlayerId with
    | some sid =>
        match play.players.find? (fun p => p.id == sid) with
        | some player =>
            handleUpdatePlayer play
              { player with route := applyRoutePresetRoute getPoints player }
        | none => play
    | none => play
  else play

/-- `handleClearRoutes` (part_000 lines 260-264): empty every token's route. -/
def handleClearRoutes (play : Play) : Play :=
  { play with players := play.players.map (fun p => { p with route := [] }) }

/-- `EXAMPLE_PLAYS` (storage.ts lines 11-44); `Date.now()` is passed in as
`now`. -/
def EXAMPLE_PLAYS (now : ℕ) : List Play :=
  [{ id := "example-1", name := "Flood Right", formation := "Trips Right",
     tags := ["Zone Beater", "Medium Yardage"],
     notes := "Overload the right side of the field. QB reads high to low.",
     createdAt := now, updatedAt := now,
     players :=
       [{ id := "p1", label := "QB", role := .OFFENSE, x := 50, y := 80,
          color := "#2563eb", route := [] },
        { id := "p2", label := "C", role := .OFFENSE, x := 50, y := 60,
          color := "#2563eb", route := [⟨50, 50⟩, ⟨40, 45⟩] },
        { id := "p3", label := "WR1", role := .OFFENSE, x := 85, y := 60,
          color := "#2563eb", route := [⟨85, 10⟩] },
        { id := "p4", label := "WR2", role := .OFFENSE, x := 75, y := 60,
          color := "#2563eb", route := [⟨75, 40⟩, ⟨90, 40⟩] },
        { id := "p5", label := "RB", role := .OFFENSE, x := 60, y := 80,
          color := "#2563eb", route := [⟨90, 70⟩] }] },
   { id := "example-2", name := "Mesh", formation := "Spread",
     tags := ["Man Beater", "Short Yardage"],
     notes := "Inside receivers cross close enough to high-five.",
     createdAt := now, updatedAt := now,
     players :=
       [{ id := "p1", label := "QB", role := .OFFENSE, x := 50, y := 80,
          color := "#2563eb", route := [] },
        { id := "p2", label := "C", role := .OFFENSE, x := 50, y := 60,
          color := "#2563eb", route := [⟨50, 50⟩, ⟨50, 40⟩] },
        { id := "p3", label := "SL", role := .OFFENSE, x := 35, y := 60,
          color := "#2563eb", route := [⟨35, 55⟩, ⟨65, 55⟩] },
        { id := "p4", label := "SR", role := .OFFENSE, x := 65, y := 60,
          color := "#2563eb", route := [⟨65, 58⟩, ⟨35, 58⟩] },
        { id := "p5", label := "WR", role := .OFFENSE, x := 10, y := 60,
          color := "#2563eb", route := [⟨10, 20⟩] }] }]

/-- `getPlays` (storage.ts lines 46-57).  `stored` is the current value under
the storage key; JSON parsing and serialization are abstract parameters.
Returns the play list together with the storage value after the call.  The
source tests `if (!stored)`, which is JS falsiness: both a missing key
(`null`) and a stored empty string take the seeding branch; only a non-empty
stored string reaches `JSON.parse`, whose failure yields the empty list with
storage untouched. -/
def getPlays (parse : String → Option (List Play))
    (serialize : List Play → String) (now : ℕ) (stored : Option String) :
    List Play × Option String :=
  match stored with
  | none => (EXAMPLE_PLAYS now, some (serialize (EXAMPLE_PLAYS now)))
  | some s =>
      if s = "" then (EXAMPLE_PLAYS now, some (serialize (EXAMPLE_PLAYS now)))
      else
        match parse s with
        | some plays => (plays, some s)
        | none => ([], some s)

/-! ## Helper lemmas -/

/-- A `min (max · lo) hi` clamp is idempotent, even when `hi < lo` (where it
collapses everything to `hi`). -/
theorem min_max_clamp_idem (a b x : ℚ) :
    min (max (min (max x a) b) a) b = min (max x a) b := by
  rcases le_total b a with hba | hab
  · have h1 : min (max x a) b = b := min_eq_right (hba.trans (le_max_right x a))
    rw [h1, max_eq_right hba, min_eq_right hba]
  · have hau : a ≤ min (max x a) b := le_min (le_max_right x a) hab
    have hub : min (max x a) b ≤ b := min_le_right _ _
    rw [max_eq_left hau, min_eq_left hub]

/-- A `min (max · lo) hi` clamp with `lo ≤ hi` lands inside `[lo, hi]`. -/
theorem clamp_bounds (lo hi v : ℚ) (h : lo ≤ hi) :
    lo ≤ max lo (min hi v) ∧ max lo (min hi v) ≤ hi :=
  ⟨le_max_left _ _, max_le h (min_le_left _ _)⟩

/-- A value already in `[lo, hi]` is a fixed point of the clamp. -/
theorem clamp_fixed (lo hi v : ℚ) (h1 : lo ≤ v) (h2 : v ≤ hi) :
    min (max v lo) hi = v := by
  rw [max_eq_left h1, min_eq_left h2]

/-! ## C5: viewport clamping is idempotent and total -/

/-- Claim C5: viewport clamping is idempotent and total: for every candidate
viewport (any origin, any positive zoom), `clampViewport (clampViewport c) =
clampViewport c`, and applying `clampViewport` to an already-legal viewport
returns it unchanged. -/
theorem clampViewport_idempotent (c : ViewportState) (hz : 0 < c.zoom) :
    clampViewport (clampViewport c) = clampViewport c ∧
      (legalViewport c → clampViewport c = c) := by
  clear hz
  constructor
  · simp [clampViewport, min_max_clamp_idem]
  · rintro ⟨h1, h2, h3, h4⟩
    obtain ⟨cx, cy, cz⟩ := c
    simp only [clampViewport]
    simp only [legalViewport] at h1 h2 h3 h4
    rw [clamp_fixed _ _ _ h1 h2, clamp_fixed _ _ _ h3 h4]

/-- Witness for C5 at the initial viewport, which is legal. -/
theorem clampViewport_idempotent_witness :
    (0 : ℚ) < 1 ∧
      (clampViewport (clampViewport ⟨0, 0, 1⟩) = clampViewport ⟨0, 0, 1⟩ ∧
        (legalViewport ⟨0, 0, 1⟩ → clampViewport ⟨0, 0, 1⟩ = ⟨0, 0, 1⟩)) ∧
      legalViewport (⟨0, 0, 1⟩ : ViewportState) :=
  ⟨by norm_num, clampViewport_idempotent ⟨0, 0, 1⟩ (by norm_num),
    by norm_num [legalViewport, FIELD_WIDTH, FIELD_HEIGHT]⟩

/-! ## C6: token-drag positions are clamped to the margin-inset surface -/

/-- Claim C6: on every TOKEN_DRAG move, regardless of how far outside the
surface the raw point lies, the position submitted for batching is
`dragClampPoint` of the raw point, which lies within
[2, 98] x [2, 78]. -/
theorem token_drag_position_clamped (s : FieldState) (pid : ℕ) (pidStr : String)
    (pt : Point) (hp : s.interaction.pointerId = some pid)
    (ht : s.interaction.type = some InteractionType.player)
    (hpl : s.interaction.playerId = some pidStr) (hne : (pidStr == "") = false) :
    (handlePointerMove false s pid pt).latestPoint = some (dragClampPoint pt) ∧
      withinMargin (dragClampPoint pt) := by
  constructor
  · obtain ⟨⟨ipid, itype, ipl, iri, isp, imoved⟩, d, tr, lp, pf, prf⟩ := s
    simp only [InteractionRef.pointerId, InteractionRef.type,
      InteractionRef.playerId] at hp ht hpl
    subst hp ht hpl
    cases pf <;>
      simp [handlePointerMove, schedulePlayerUpdate, truthyStr, hne]
  · refine ⟨?_, ?_, ?_, ?_⟩
    · exact (clamp_bounds 2 (FIELD_WIDTH - 2) pt.x (by norm_num [FIELD_WIDTH])).1
    · exact (clamp_bounds 2 (FIELD_WIDTH - 2) pt.x (by norm_num [FIELD_WIDTH])).2
    · exact (clamp_bounds 2 (FIELD_HEIGHT - 2) pt.y (by norm_num [FIELD_HEIGHT])).1
    · exact (clamp_bounds 2 (FIELD_HEIGHT - 2) pt.y (by norm_num [FIELD_HEIGHT])).2

/-- Witness for C6, the spec's own scenario: a raw point at model (150, 10)
commits position (98, 10). -/
theorem token_drag_position_clamped_witness :
    ((handlePointerMove false
        ⟨⟨some 1, some InteractionType.player, some "p1", none, none, false⟩,
          true, [], none, none, none⟩ 1 ⟨150, 10⟩).latestPoint =
      some (dragClampPoint ⟨150, 10⟩) ∧ withinMargin (dragClampPoint ⟨150, 10⟩)) ∧
      dragClampPoint ⟨150, 10⟩ = ⟨98, 10⟩ :=
  ⟨token_drag_position_clamped _ 1 "p1" ⟨150, 10⟩ rfl rfl rfl rfl,
    by norm_num [dragClampPoint, FIELD_WIDTH, FIELD_HEIGHT]⟩

/-! ## C1: boundary clamping at every write site -/

/-- A selected offense token used by the C1 counterexample. -/
def c1Player : Player :=
  { id := "p1", label := "X", role := .OFFENSE, x := 50, y := 60,
    color := "#2563eb", route := [] }

/-- An artifact holding just `c1Player`. -/
def c1Play : Play :=
  { id := "play1", name := "P", formation := "F", tags := [], notes := "",
    createdAt := 0, updatedAt := 0, players := [c1Player] }

/-- A live `field` interaction that has not moved (a tap). -/
def c1State : FieldState :=
  { interaction := ⟨some 1, some .field, none, none, none, false⟩,
    isDragging := false, dragTrail := [], latestPoint := none,
    pendingFrame := none, pendingRouteFrame := none }

/-- Counterexample to claim C1: a tap-to-extend release at raw model point
(150, 10) appends the waypoint (100, 10) to the selected offense token's
path — the release handler clamps to the full surface [0, 100] x [0, 80]
(Field.tsx lines 207-208), not to the margin-inset rectangle, so the written
point violates the claimed [2, 98] x [2, 78] bound. -/
theorem tap_extend_escapes_margin :
    (handlePointerUp c1Play (some "p1") c1State 1 ⟨150, 10⟩).2 =
        [Effect.updatePlayer { c1Player with route := [⟨100, 10⟩] }] ∧
      ¬ withinMargin ⟨100, 10⟩ :=
  ⟨by decide, by norm_num [FIELD_WIDTH]⟩

/-- Claim C1 as amended: the three margin-clamped write sites (token drag
move, waypoint drag move, route-template apply) always write points inside
[2, 98] x [2, 78]; the tap-to-extend append instead clamps to the full
surface and writes inside [0, 100] x [0, 80]. -/
theorem write_clamp_bounds (p : Point)
    (getPoints : ℚ → ℚ → ℚ → ℚ → List Point) (player : Player) :
    withinMargin (dragClampPoint p) ∧ withinMargin (routeClampPoint p) ∧
      withinField (tapClampPoint p) ∧
      ∀ q ∈ applyRoutePresetRoute getPoints player, withinMargin q := by
  have hw : FIELD_WIDTH - 2 = 98 := by norm_num [FIELD_WIDTH]
  have hh : FIELD_HEIGHT - 2 = 78 := by norm_num [FIELD_HEIGHT]
  refine ⟨⟨?_, ?_, ?_, ?_⟩, ⟨?_, ?_, ?_, ?_⟩, ⟨?_, ?_, ?_, ?_⟩, ?_⟩
  · exact (clamp_bounds 2 (FIELD_WIDTH - 2) p.x (by norm_num [FIELD_WIDTH])).1
  · exact (clamp_bounds 2 (FIELD_WIDTH - 2) p.x (by norm_num [FIELD_WIDTH])).2
  · exact (clamp_bounds 2 (FIELD_HEIGHT - 2) p.y (by norm_num [FIELD_HEIGHT])).1
  · exact (clamp_bounds 2 (FIELD_HEIGHT - 2) p.y (by norm_num [FIELD_HEIGHT])).2
  · exact (clamp_bounds 2 (FIELD_WIDTH - 2) p.x (by norm_num [FIELD_WIDTH])).1
  · exact (clamp_bounds 2 (FIELD_WIDTH - 2) p.x (by norm_num [FIELD_WIDTH])).2
  · exact (clamp_bounds 2 (FIELD_HEIGHT - 2) p.y (by norm_num [FIELD_HEIGHT])).1
  · exact (clamp_bounds 2 (FIELD_HEIGHT - 2) p.y (by norm_num [FIELD_HEIGHT])).2
  · exact (clamp_bounds 0 FIELD_WIDTH p.x (by norm_num [FIELD_WIDTH])).1
  · exact (clamp_bounds 0 FIELD_WIDTH p.x (by norm_num [FIELD_WIDTH])).2
  · exact (clamp_bounds 0 FIELD_HEIGHT p.y (by norm_num [FIELD_HEIGHT])).1
  · exact (clamp_bounds 0 FIELD_HEIGHT p.y (by norm_num [FIELD_HEIGHT])).2
  · intro q hq
    simp only [applyRoutePresetRoute, List.mem_map] at hq
    obtain ⟨r, _, rfl⟩ := hq
    have hx := clamp_bounds 2 98 r.x (by norm_num)
    have hy := clamp_bounds 2 78 r.y (by norm_num)
    exact ⟨hx.1, hw ▸ hx.2, hy.1, hh ▸ hy.2⟩

/-- Witness for the amended C1 at the spec's scenario point (150, 10) and a
template throwing a point far above the surface. -/
theorem write_clamp_bounds_witness :
    withinMargin (dragClampPoint ⟨150, 10⟩) ∧
      withinMargin (routeClampPoint ⟨150, 10⟩) ∧
      withinField (tapClampPoint ⟨150, 10⟩) ∧
      ∀ q ∈ applyRoutePresetRoute (fun x y _ _ => [⟨x, y - 200⟩]) c1Player,
        withinMargin q :=
  write_clamp_bounds ⟨150, 10⟩ (fun x y _ _ => [⟨x, y - 200⟩]) c1Player

/-! ## C2: tap-to-extend appends for offense, clears selection otherwise -/

/-- Claim C2: on pointer release of a `field` interaction with `moved = false`
and a token selected: if the selected token exists and is OFFENSE, exactly one
waypoint — the clamped release point — is appended to its path; if it is
DEFENSE, or no token with the selected id exists, nothing is appended and the
selection is cleared instead. -/
theorem tap_to_extend_dichotomy (play : Play) (sid : String)
    (hsid : (sid == "") = false) (s : FieldState) (pid : ℕ) (pt : Point)
    (hp : s.interaction.pointerId = some pid)
    (ht : s.interaction.type = some InteractionType.field)
    (hm : s.interaction.moved = false) :
    (∀ cp, play.players.find? (fun p => p.id == sid) = some cp →
        cp.role = PlayerRole.OFFENSE →
        handlePointerUp play (some sid) s pid pt =
          ({ s with interaction := idleInteraction },
            [Effect.updatePlayer
              { cp with route := cp.route ++ [tapClampPoint pt] }])) ∧
      (∀ cp, play.players.find? (fun p => p.id == sid) = some cp →
        cp.role = PlayerRole.DEFENSE →
        handlePointerUp play (some sid) s pid pt =
          ({ s with interaction := idleInteraction },
            [Effect.selectPlayer none])) ∧
      (play.players.find? (fun p => p.id == sid) = none →
        handlePointerUp play (some sid) s pid pt =
          ({ s with interaction := idleInteraction },
            [Effect.selectPlayer none])) := by
  obtain ⟨⟨ipid, itype, ipl, iri, isp, imoved⟩, d, tr, lp, pf, prf⟩ := s
  simp only [InteractionRef.pointerId, InteractionRef.type,
    InteractionRef.moved] at hp ht hm
  subst hp ht hm
  refine ⟨?_, ?_, ?_⟩
  · intro cp hfind hrole
    simp [handlePointerUp, truthyStr, hsid, hfind, hrole]
  · intro cp hfind hrole
    simp [handlePointerUp, truthyStr, hsid, hfind, hrole]
  · intro hfind
    simp [handlePointerUp, truthyStr, hsid, hfind]

/-- An artifact with one offense and one defense token, for the C2 witness. -/
def c2Play : Play :=
  { id := "play2", name := "P", formation := "F", tags := [], notes := "",
    createdAt := 0, updatedAt := 0,
    players :=
      [{ id := "p1", label := "X", role := .OFFENSE, x := 50, y := 60,
         color := "#2563eb", route := [] },
       { id := "d1", label := "D", role := .DEFENSE, x := 50, y := 30,
         color := "#dc2626", route := [] }] }

/-- A live un-moved `field` interaction for the C2 witness. -/
def c2State : FieldState :=
  { interaction := ⟨some 1, some .field, none, none, none, false⟩,
    isDragging := false, dragTrail := [], latestPoint := none,
    pendingFrame := none, pendingRouteFrame := none }

/-- Witness for C2: a tap at (30, 20) with offense token "p1" selected appends
exactly the waypoint (30, 20). -/
theorem tap_to_extend_dichotomy_witness :
    (∀ cp, c2Play.players.find? (fun p => p.id == "p1") = some cp →
        cp.role = PlayerRole.OFFENSE →
        handlePointerUp c2Play (some "p1") c2State 1 ⟨30, 20⟩ =
          ({ c2State with interaction := idleInteraction },
            [Effect.updatePlayer
              { cp with route := cp.route ++ [tapClampPoint ⟨30, 20⟩] }])) ∧
      (∀ cp, c2Play.players.find? (fun p => p.id == "p1") = some cp →
        cp.role = PlayerRole.DEFENSE →
        handlePointerUp c2Play (some "p1") c2State 1 ⟨30, 20⟩ =
          ({ c2State with interaction := idleInteraction },
            [Effect.selectPlayer none])) ∧
      (c2Play.players.find? (fun p => p.id == "p1") = none →
        handlePointerUp c2Play (some "p1") c2State 1 ⟨30, 20⟩ =
          ({ c2State with interaction := idleInteraction },
            [Effect.selectPlayer none])) :=
  tap_to_extend_dichotomy c2Play "p1" rfl c2State 1 ⟨30, 20⟩ rfl rfl rfl

/-! ## C3: within-frame batching is last-write-wins -/

/-- Folding any nonempty burst of scheduled samples leaves the latest sample
in `latestPointRef` and at most one pending frame callback, whose closure
captured the key of the first registration. -/
theorem foldl_schedulePlayerUpdate (pid : String) :
    ∀ (pts : List Point) (s : FieldState) (last : Point),
      pts.getLast? = some last →
      pts.foldl (fun acc p => schedulePlayerUpdate acc pid p) s =
        { s with latestPoint := some last,
                 pendingFrame :=
                   if s.pendingFrame = none then some pid else s.pendingFrame } := by
  intro pts
  induction pts with
  | nil => intro s last h; simp at h
  | cons p rest ih =>
      intro s last h
      cases rest with
      | nil =>
          simp only [List.getLast?_singleton, Option.some.injEq] at h
          subst h
          obtain ⟨i, d, tr, lp, pf, prf⟩ := s
          cases pf <;> simp [schedulePlayerUpdate]
      | cons q rest' =>
          rw [List.getLast?_cons_cons] at h
          rw [List.foldl_cons, ih (schedulePlayerUpdate s pid p) last h]
          obtain ⟨i, d, tr, lp, pf, prf⟩ := s
          cases pf <;> simp [schedulePlayerUpdate]

/-- Claim C3: N >= 1 move samples scheduled for the same key within one
animation frame produce, when the frame callback fires, exactly one
`onUpdatePlayer` call carrying the last sample's value; earlier samples are
overwritten, not queued. -/
theorem batched_moves_single_update (play : Play) (pid : String)
    (player : Player) (s0 : FieldState) (pts : List Point) (last : Point)
    (h0 : s0.pendingFrame = none) (hl : pts.getLast? = some last)
    (hfind : play.players.find? (fun p => p.id == pid) = some player) :
    (firePlayerFrame play
        (pts.foldl (fun acc p => schedulePlayerUpdate acc pid p) s0)).2 =
      [Effect.updatePlayer { player with x := last.x, y := last.y }] := by
  rw [foldl_schedulePlayerUpdate pid pts s0 last hl]
  simp [firePlayerFrame, h0, hfind]

/-- The single token of the C3 witness artifact. -/
def c3Player : Player :=
  { id := "p1", label := "X", role := .OFFENSE, x := 50, y := 60,
    color := "#2563eb", route := [] }

/-- An artifact with one token, for the C3 witness. -/
def c3Play : Play :=
  { id := "play3", name := "P", formation := "F", tags := [], notes := "",
    createdAt := 0, updatedAt := 0, players := [c3Player] }

/-- Witness for C3: three samples scheduled in one frame produce exactly one
update, carrying the third sample (30, 30). -/
theorem batched_moves_single_update_witness :
    (firePlayerFrame c3Play
        (([⟨10, 10⟩, ⟨20, 20⟩, ⟨30, 30⟩] : List Point).foldl
          (fun acc p => schedulePlayerUpdate acc "p1" p) initialFieldState)).2 =
      [Effect.updatePlayer { c3Player with x := 30, y := 30 }] :=
  batched_moves_single_update c3Play "p1" c3Player initialFieldState
    [⟨10, 10⟩, ⟨20, 20⟩, ⟨30, 30⟩] ⟨30, 30⟩ rfl rfl (by decide)

/-! ## C4: wheel zoom bounds and focal-point preservation -/

/-- Counterexample to claim C4: zooming out (factor 0.92) from the legal
viewport (-25, 0, zoom 1) with the pointer over model point (75, 20) — the
right edge of the visible window — computes origin x = -775/23, which the
origin clamp pulls back to -25; the focal point's screen position changes
from fraction 1 to 23/25 of the window width, so focal preservation fails
once the result is piped through viewport clamping. -/
theorem wheel_zoom_focal_shift :
    screenFrac (handleWheel ⟨-25, 0, 1⟩ ⟨75, 20⟩ false) ⟨75, 20⟩ ≠
        screenFrac ⟨-25, 0, 1⟩ ⟨75, 20⟩ ∧
      clampViewport ⟨-25, 0, 1⟩ = ⟨-25, 0, 1⟩ := by
  constructor
  · norm_num [handleWheel, clampViewport, wheelZoom, screenFrac,
      FIELD_WIDTH, FIELD_HEIGHT, min_def, max_def, ViewportState.mk.injEq,
      Point.mk.injEq]
  · norm_num [clampViewport, FIELD_WIDTH, FIELD_HEIGHT, min_def, max_def]

/-- Claim C4 as amended: every wheel zoom yields a zoom factor in
[0.6, 2.5], and the focal model point under the pointer keeps its screen
position across the zoom computation itself; after the result is piped
through viewport clamping the focal point is preserved exactly when the
clamp leaves the zoomed viewport unchanged (it can shift the focal point
when the origin clamp engages at the overscroll edge). -/
theorem wheel_zoom_bounds_and_anchor (prev : ViewportState) (focus : Point)
    (zoomIn : Bool) :
    (3/5 ≤ (handleWheel prev focus zoomIn).zoom ∧
        (handleWheel prev focus zoomIn).zoom ≤ 5/2) ∧
      screenFrac (wheelZoom prev focus zoomIn) focus = screenFrac prev focus ∧
      (clampViewport (wheelZoom prev focus zoomIn) = wheelZoom prev focus zoomIn →
        screenFrac (handleWheel prev focus zoomIn) focus =
          screenFrac prev focus) := by
  have hnz : (0 : ℚ) <
      min (5/2) (max (3/5) (prev.zoom * (if zoomIn then 27/25 else 23/25))) :=
    lt_min (by norm_num) (lt_of_lt_of_le (by norm_num) (le_max_left _ _))
  have hw : FIELD_WIDTH /
      min (5/2) (max (3/5) (prev.zoom * (if zoomIn then 27/25 else 23/25))) ≠ 0 :=
    div_ne_zero (by norm_num [FIELD_WIDTH]) (ne_of_gt hnz)
  have hh : FIELD_HEIGHT /
      min (5/2) (max (3/5) (prev.zoom * (if zoomIn then 27/25 else 23/25))) ≠ 0 :=
    div_ne_zero (by norm_num [FIELD_HEIGHT]) (ne_of_gt hnz)
  have hb : screenFrac (wheelZoom prev focus zoomIn) focus =
      screenFrac prev focus := by
    simp only [wheelZoom, screenFrac]
    congr 1
    · rw [sub_sub_cancel, mul_div_cancel_right₀ _ hw]
    · rw [sub_sub_cancel, mul_div_cancel_right₀ _ hh]
  refine ⟨?_, hb, ?_⟩
  · simp only [handleWheel, clampViewport, wheelZoom]
    exact ⟨le_min (by norm_num) (le_max_left _ _), min_le_left _ _⟩
  · intro hcl
    unfold handleWheel
    rw [hcl]
    exact hb

/-- Witness for the amended C4: the spec's own scenario, zooming in at focal
point (50, 40) from the initial viewport (where the clamp is the identity on
the zoomed result). -/
theorem wheel_zoom_bounds_and_anchor_witness :
    ((3/5 ≤ (handleWheel ⟨0, 0, 1⟩ ⟨50, 40⟩ true).zoom ∧
        (handleWheel ⟨0, 0, 1⟩ ⟨50, 40⟩ true).zoom ≤ 5/2) ∧
      screenFrac (wheelZoom ⟨0, 0, 1⟩ ⟨50, 40⟩ true) ⟨50, 40⟩ =
        screenFrac ⟨0, 0, 1⟩ ⟨50, 40⟩ ∧
      (clampViewport (wheelZoom ⟨0, 0, 1⟩ ⟨50, 40⟩ true) =
          wheelZoom ⟨0, 0, 1⟩ ⟨50, 40⟩ true →
        screenFrac (handleWheel ⟨0, 0, 1⟩ ⟨50, 40⟩ true) ⟨50, 40⟩ =
          screenFrac ⟨0, 0, 1⟩ ⟨50, 40⟩)) ∧
      clampViewport (wheelZoom ⟨0, 0, 1⟩ ⟨50, 40⟩ true) =
        wheelZoom ⟨0, 0, 1⟩ ⟨50, 40⟩ true :=
  ⟨wheel_zoom_bounds_and_anchor ⟨0, 0, 1⟩ ⟨50, 40⟩ true,
    by norm_num [clampViewport, wheelZoom, FIELD_WIDTH, FIELD_HEIGHT,
      min_def, max_def]⟩

/-! ## C7: stale waypoint updates -/

/-- Index-targeted replacement at an out-of-range index leaves the list
unchanged. -/
theorem replaceAt_out_of_range (l : List Point) (i : ℕ) (v : Point)
    (h : l.length ≤ i) : replaceAt l i v = l := by
  induction l generalizing i with
  | nil => rfl
  | cons p rest ih =>
      cases i with
      | zero => simp at h
      | succ n =>
          simp only [List.length_cons, Nat.succ_le_succ_iff] at h
          simp [replaceAt, ih n h]

/-- Replacing, by id, a token of a duplicate-free list with itself leaves the
list unchanged. -/
theorem map_replace_self (l : List Player) (a : Player) (ha : a ∈ l)
    (hnd : (l.map Player.id).Nodup) :
    l.map (fun p => if p.id == a.id then a else p) = l := by
  induction l with
  | nil => cases ha
  | cons h t ih =>
      rw [List.map_cons] at hnd ⊢
      have hhead := (List.nodup_cons.mp hnd).1
      have htail := (List.nodup_cons.mp hnd).2
      rcases List.mem_cons.mp ha with rfl | hat
      · have ht : t.map (fun p => if p.id == a.id then a else p) = t := by
          have hcong : ∀ p ∈ t, (if p.id == a.id then a else p) = id p := by
            intro p hp
            have : ¬ p.id = a.id := fun he =>
              hhead (he ▸ List.mem_map_of_mem Player.id hp)
            simp [this]
          rw [List.map_congr_left hcong, List.map_id]
        rw [ht]
        simp
      · have hne : ¬ h.id = a.id := fun he => by
          exact hhead (he ▸ List.mem_map_of_mem Player.id hat)
        rw [ih hat htail]
        simp [hne]

/-- The token targeted by the C7 counterexample, with a one-point path. -/
def c7Player : Player :=
  { id := "p1", label := "X", role := .OFFENSE, x := 50, y := 60,
    color := "#2563eb", route := [⟨10, 10⟩] }

/-- An artifact holding just `c7Player`. -/
def c7Play : Play :=
  { id := "play7", name := "P", formation := "F", tags := [], notes := "",
    createdAt := 0, updatedAt := 0, players := [c7Player] }

/-- A pending batched waypoint move targeting index 5 of a one-point path. -/
def c7State : FieldState :=
  { initialFieldState with pendingRouteFrame := some ("p1", 5, ⟨20, 20⟩) }

/-- Counterexample to claim C7: when the batched waypoint move fires with an
out-of-range index (5, against a one-point path) while the token still
exists, the update is not silently dropped — exactly one `onUpdatePlayer`
call is still issued (it carries the token with its path unchanged). -/
theorem stale_waypoint_update_emits_call :
    (fireRouteFrame c7Play c7State).2 = [Effect.updatePlayer c7Player] ∧
      (fireRouteFrame c7Play c7State).2 ≠ [] := by
  exact ⟨by decide, by decide⟩

/-- Claim C7 as amended: a stale batched waypoint move raises no error and
changes no token's path: if the token no longer exists the update is dropped
outright; if only the index is out of range, one update call still fires but
carries the token's path unchanged, so (for duplicate-free token ids)
applying it leaves the artifact identical. -/
theorem stale_waypoint_update_harmless (play : Play) (s : FieldState)
    (pid : String) (idx : ℕ) (cpt : Point)
    (hpend : s.pendingRouteFrame = some (pid, idx, cpt)) :
    (play.players.find? (fun p => p.id == pid) = none →
        (fireRouteFrame play s).2 = []) ∧
      (∀ player, play.players.find? (fun p => p.id == pid) = some player →
        player.route.length ≤ idx →
        (fireRouteFrame play s).2 = [Effect.updatePlayer player] ∧
          ((play.players.map Player.id).Nodup →
            handleUpdatePlayer play player = play)) := by
  constructor
  · intro hfind
    simp [fireRouteFrame, hpend, hfind]
  · intro player hfind hlen
    have hroute : replaceAt player.route idx cpt = player.route :=
      replaceAt_out_of_range _ _ _ hlen
    constructor
    · obtain ⟨pi, pl, pr, px, py, pc, prt⟩ := player
      simp [fireRouteFrame, hpend, hfind, hroute]
    · intro hnd
      have hmem : player ∈ play.players := List.mem_of_find?_eq_some hfind
      obtain ⟨pls, pn, pf, ptags, pnotes, pca, pua, pps⟩ := play
      simp only [handleUpdatePlayer]
      rw [map_replace_self _ _ hmem hnd]

/-- Witness for the amended C7 at the counterexample's concrete scenario. -/
theorem stale_waypoint_update_harmless_witness :
    (c7Play.players.find? (fun p => p.id == "p1") = none →
        (fireRouteFrame c7Play c7State).2 = []) ∧
      (∀ player, c7Play.players.find? (fun p => p.id == "p1") = some player →
        player.route.length ≤ 5 →
        (fireRouteFrame c7Play c7State).2 = [Effect.updatePlayer player] ∧
          ((c7Play.players.map Player.id).Nodup →
            handleUpdatePlayer c7Play player = c7Play)) :=
  stale_waypoint_update_harmless c7Play c7State "p1" 5 ⟨20, 20⟩ rfl

/-! ## C8: persistence read fallbacks -/

/-- Counterexample to claim C8: a stored empty string is malformed JSON
(`JSON.parse("")` throws), yet the program does not return the empty list —
the `if (!stored)` falsiness test sends `""` down the seeding branch, so the
example-seeded list is stored and returned instead. -/
theorem empty_string_storage_returns_examples :
    (getPlays (fun _ => none) (fun _ => "ser") 0 (some "")).1 =
        EXAMPLE_PLAYS 0 ∧
      (fun _ => (none : Option (List Play))) "" = none ∧
      (getPlays (fun _ => none) (fun _ => "ser") 0 (some "")).1 ≠ [] :=
  ⟨rfl, rfl, by decide⟩

/-- Claim C8 as amended: reading the persisted play list never propagates an
error: if the storage key is absent or holds the empty string (a falsy stored
value), the example-seeded list is stored and returned; if the stored data is
a non-empty string the JSON parser rejects, the empty list is returned. -/
theorem getPlays_fallbacks (parse : String → Option (List Play))
    (serialize : List Play → String) (now : ℕ) (stored : Option String) :
    (stored = none ∨ stored = some "" →
        getPlays parse serialize now stored =
          (EXAMPLE_PLAYS now, some (serialize (EXAMPLE_PLAYS now)))) ∧
      (∀ s, stored = some s → s ≠ "" → parse s = none →
        (getPlays parse serialize now stored).1 = []) := by
  constructor
  · rintro (rfl | rfl)
    · rfl
    · rfl
  · rintro s rfl hs hp
    simp [getPlays, hs, hp]

/-- Witness for the amended C8 with a parser that rejects everything and a
non-empty malformed stored string. -/
theorem getPlays_fallbacks_witness :
    ((some "not json" : Option String) = none ∨
          (some "not json" : Option String) = some "" →
        getPlays (fun _ => none) (fun _ => "") 0 (some "not json") =
          (EXAMPLE_PLAYS 0, some "")) ∧
      (∀ s, (some "not json" : Option String) = some s → s ≠ "" →
        (fun _ => (none : Option (List Play))) s = none →
        (getPlays (fun _ => none) (fun _ => "") 0 (some "not json")).1 = []) :=
  getPlays_fallbacks (fun _ => none) (fun _ => "") 0 (some "not json")

/-! ## C9: clearing all paths is a pure frame effect on routes -/

/-- Claim C9: `handleClearRoutes` leaves every token with an empty path and
preserves the token count and every other token field (id, label, role,
position, color) position-by-position. -/
theorem clearAllPaths_spec (play : Play) :
    (handleClearRoutes play).players.length = play.players.length ∧
      (∀ p ∈ (handleClearRoutes play).players, p.route = []) ∧
      ∀ i, ((handleClearRoutes play).players.get? i).map
            (fun p => (p.id, p.label, p.role, p.x, p.y, p.color)) =
          (play.players.get? i).map
            (fun p => (p.id, p.label, p.role, p.x, p.y, p.color)) := by
  refine ⟨?_, ?_, ?_⟩
  · simp [handleClearRoutes]
  · intro p hp
    simp only [handleClearRoutes, List.mem_map] at hp
    obtain ⟨q, _, rfl⟩ := hp
    rfl
  · intro i
    simp only [handleClearRoutes, List.get?_map]
    cases play.players.get? i <;> simp

/-- The spec's C9 scenario: five tokens, three with non-empty paths. -/
def c9Play : Play :=
  { id := "play9", name := "P", formation := "F", tags := [], notes := "",
    createdAt := 0, updatedAt := 0,
    players :=
      [{ id := "p1", label := "QB", role := .OFFENSE, x := 50, y := 80,
         color := "#2563eb", route := [] },
       { id := "p2", label := "C", role := .OFFENSE, x := 50, y := 60,
         color := "#2563eb", route := [⟨50, 50⟩, ⟨40, 45⟩] },
       { id := "p3", label := "WR1", role := .OFFENSE, x := 85, y := 60,
         color := "#2563eb", route := [⟨85, 10⟩] },
       { id := "p4", label := "WR2", role := .OFFENSE, x := 75, y := 60,
         color := "#2563eb", route := [⟨75, 40⟩, ⟨90, 40⟩] },
       { id := "d1", label := "D", role := .DEFENSE, x := 50, y := 30,
         color := "#dc2626", route := [] }] }

/-- Witness for C9 at the five-token scenario artifact. -/
theorem clearAllPaths_spec_witness :
    (handleClearRoutes c9Play).players.length = c9Play.players.length ∧
      (∀ p ∈ (handleClearRoutes c9Play).players, p.route = []) ∧
      ∀ i, ((handleClearRoutes c9Play).players.get? i).map
            (fun p => (p.id, p.label, p.role, p.x, p.y, p.color)) =
          (c9Play.players.get? i).map
            (fun p => (p.id, p.label, p.role, p.x, p.y, p.color)) :=
  clearAllPaths_spec c9Play

/-! ## C10: the read-only flag suppresses every external effect -/

/-- With the read-only flag set, any single event leaves the freshly mounted
component state unchanged and emits no callback. -/
theorem fieldStep_readOnly_inert (play : Play) (sel : Option String)
    (e : FieldEvent) :
    fieldStep true play sel initialFieldState e = (initialFieldState, []) := by
  cases e <;>
    simp [fieldStep, handlePointerDown, handlePointerMove, handlePointerUp,
      firePlayerFrame, fireRouteFrame, initialFieldState, idleInteraction]

/-- Claim C10: with the read-only flag set, no sequence of events (pointer
down, move, up, or a pending-frame firing) produces any external effect:
`onSelectPlayer` and `onUpdatePlayer` are never invoked and no interaction
is ever created — the state never leaves its initial value, so in particular
tap-to-extend cannot fire on release even though the release handler itself
does not test the flag. -/
theorem readOnly_no_external_effects (play : Play) (sel : Option String)
    (events : List FieldEvent) :
    fieldRun true play sel initialFieldState events = (initialFieldState, []) := by
  induction events with
  | nil => rfl
  | cons e rest ih =>
      simp [fieldRun, fieldStep_readOnly_inert, ih]

end PlayDesign
